import Mathlib

/-!
Verification of the air-quality IoT server (`src/main.py`).

The program is a FastAPI application backed by a SQLAlchemy relational
store.  We embed it shallowly:

* Python floats become `ℚ` (every comparison in the program is an exact
  comparison against a decimal constant, so rational semantics coincide
  with IEEE semantics on the values involved);
* a `datetime` timestamp becomes a `Nat` (ingestion time, as assigned by
  `datetime.utcnow()` at the top of `receive_data`);
* the `air_quality` table becomes a `List AirQuality` in insertion order,
  each row carrying its integer primary key `id`;
* `ORDER BY timestamp ASC/DESC` becomes a stable `mergeSort` on the
  timestamp field;
* `db.delete(row)` (deletion through the ORM identity, i.e. by primary
  key) removes the rows whose `id` matches a selected victim.
-/

/-- One row of the `air_quality` table (class `AirQuality` in the source). -/
structure AirQuality where
  id : Nat
  timestamp : Nat
  device_id : String
  temperature : ℚ
  humidity : ℚ
  co_ppm : ℚ
  h2_ppm : ℚ
  butane_ppm : ℚ
  alert : Bool
  co_alert : Bool
  butane_alert : Bool
  temperature_alert : Bool
  humidity_alert : Bool
deriving DecidableEq

/-- The request payload model (`class ESP32Data(BaseModel)`). -/
structure ESP32Data where
  device_id : String
  temperature : ℚ
  humidity : ℚ
  co_ppm : ℚ
  h2_ppm : ℚ
  butane_ppm : ℚ
deriving DecidableEq

/-- The five booleans returned by `compute_alerts`, in source order. -/
structure AlertVector where
  alert : Bool
  co_alert : Bool
  butane_alert : Bool
  temperature_alert : Bool
  humidity_alert : Bool
deriving DecidableEq

def CO_THRESHOLD : ℚ := 50
def BUTANE_THRESHOLD : ℚ := 10
def TEMP_MIN : ℚ := 15
def TEMP_MAX : ℚ := 30
def HUMIDITY_MIN : ℚ := 20
def HUMIDITY_MAX : ℚ := 70
def MAX_RECORDS_PER_DEVICE : Nat := 1000

/-- `compute_alerts` (src/main.py lines 67-73). -/
def compute_alerts (data : ESP32Data) : AlertVector :=
  let co_alert := decide (data.co_ppm > CO_THRESHOLD)
  let butane_alert := decide (data.butane_ppm > BUTANE_THRESHOLD)
  let temperature_alert := !decide (TEMP_MIN ≤ data.temperature ∧ data.temperature ≤ TEMP_MAX)
  let humidity_alert := !decide (HUMIDITY_MIN ≤ data.humidity ∧ data.humidity ≤ HUMIDITY_MAX)
  let alert := co_alert || butane_alert || temperature_alert || humidity_alert
  { alert := alert, co_alert := co_alert, butane_alert := butane_alert,
    temperature_alert := temperature_alert, humidity_alert := humidity_alert }

/-- Comparison used by `ORDER BY timestamp ASC`. -/
def tsLe (a b : AirQuality) : Bool := a.timestamp ≤ b.timestamp

/-- Comparison used by `ORDER BY timestamp DESC`. -/
def tsGe (a b : AirQuality) : Bool := b.timestamp ≤ a.timestamp

/-- `db.query(AirQuality).filter(AirQuality.device_id == device_id)`. -/
def deviceRecords (db : List AirQuality) (device_id : String) : List AirQuality :=
  db.filter (fun r => r.device_id == device_id)

/-- The device rows ordered by timestamp ascending. -/
def sortedDev (db : List AirQuality) (device_id : String) : List AirQuality :=
  (deviceRecords db device_id).mergeSort tsLe

/-- How many rows of the device exceed the retention cap (0 when within cap). -/
def excess (db : List AirQuality) (device_id : String) : Nat :=
  (deviceRecords db device_id).length - MAX_RECORDS_PER_DEVICE

/-- The victim selection of `cleanup_old_records`: oldest `count - max`
rows of the device by timestamp ascending. -/
def toDelete (db : List AirQuality) (device_id : String) : List AirQuality :=
  (sortedDev db device_id).take (excess db device_id)

/-- `cleanup_old_records` (src/main.py lines 75-90): count the device rows;
if the count exceeds `MAX_RECORDS_PER_DEVICE`, select the oldest
`count - max` rows by timestamp ascending and delete each by primary key. -/
def cleanup_old_records (db : List AirQuality) (device_id : String) : List AirQuality :=
  let count := (deviceRecords db device_id).length
  if MAX_RECORDS_PER_DEVICE < count then
    let to_delete := toDelete db device_id
    db.filter (fun r => !(to_delete.any (fun d => d.id == r.id)))
  else
    db

/-- Autoincrement of the `id` primary key: one more than every existing id. -/
def freshId (db : List AirQuality) : Nat :=
  db.foldr (fun r m => Nat.max (r.id + 1) m) 0

/-- The row literal built inside `receive_data` (src/main.py lines 99-112):
ingestion timestamp, the payload fields, and the computed alert vector. -/
def ingestedRecord (db : List AirQuality) (now : Nat) (data : ESP32Data) : AirQuality :=
  { id := freshId db
    timestamp := now
    device_id := data.device_id
    temperature := data.temperature
    humidity := data.humidity
    co_ppm := data.co_ppm
    h2_ppm := data.h2_ppm
    butane_ppm := data.butane_ppm
    alert := (compute_alerts data).alert
    co_alert := (compute_alerts data).co_alert
    butane_alert := (compute_alerts data).butane_alert
    temperature_alert := (compute_alerts data).temperature_alert
    humidity_alert := (compute_alerts data).humidity_alert }

/-- `receive_data` (src/main.py lines 93-120): compute the alerts, insert
the row, commit, run the retention pass for the payload's device, and
answer `status: ok`.  `now` models the `datetime.utcnow()` call. -/
def receive_data (db : List AirQuality) (now : Nat) (data : ESP32Data) :
    List AirQuality × String :=
  let record := ingestedRecord db now data
  let db1 := db ++ [record]
  let db2 := cleanup_old_records db1 data.device_id
  (db2, "ok")

/-- A JSON-serialisable value appearing in a response or a CSV cell. -/
inductive CellValue where
  | str (s : String)
  | num (q : ℚ)
  | boolVal (b : Bool)
  | time (t : Nat)
deriving DecidableEq

/-- Result of the `/latest` route: either the `No data yet` message or a
JSON object given as an ordered list of key/value pairs. -/
inductive LatestResult where
  | noData
  | ok (fields : List (String × CellValue))
deriving DecidableEq

/-- The eight-field JSON object the `/latest` route builds from a row
(src/main.py lines 133-142). -/
def toLatestFields (r : AirQuality) : List (String × CellValue) :=
  [("timestamp", .time r.timestamp),
   ("device_id", .str r.device_id),
   ("temperature", .num r.temperature),
   ("humidity", .num r.humidity),
   ("co_ppm", .num r.co_ppm),
   ("h2_ppm", .num r.h2_ppm),
   ("butane_ppm", .num r.butane_ppm),
   ("alert", .boolVal r.alert)]

/-- `latest` (src/main.py lines 122-142): order all rows by timestamp
descending, take the first; answer `No data yet` when there is none. -/
def latest (db : List AirQuality) : LatestResult :=
  match (db.mergeSort tsGe).head? with
  | none => LatestResult.noData
  | some row => LatestResult.ok (toLatestFields row)

/-- The CSV header row of `download_csv` (src/main.py lines 152-157). -/
def csvHeader : List String :=
  ["timestamp", "device_id", "temperature", "humidity",
   "co_ppm", "h2_ppm", "butane_ppm",
   "alert", "co_alert", "butane_alert",
   "temperature_alert", "humidity_alert"]

/-- One CSV data row (src/main.py lines 160-165), field values in header order. -/
def recordRow (r : AirQuality) : List CellValue :=
  [.time r.timestamp, .str r.device_id, .num r.temperature, .num r.humidity,
   .num r.co_ppm, .num r.h2_ppm, .num r.butane_ppm,
   .boolVal r.alert, .boolVal r.co_alert, .boolVal r.butane_alert,
   .boolVal r.temperature_alert, .boolVal r.humidity_alert]

/-- `download_csv` (src/main.py lines 144-172): the header row and one
data row per stored record, in store order. -/
def download_csv (db : List AirQuality) : List String × List (List CellValue) :=
  (csvHeader, db.map recordRow)

/-- Device identifiers used in concrete test states. -/
def devA : String := "A"

def devB : String := "B"

def devC : String := "C"

/-- A stored row for device `dev` whose id and timestamp are both `i` and
whose reading raises no alert. -/
def mkStoredRec (dev : String) (i : Nat) : AirQuality :=
  { id := i, timestamp := i, device_id := dev, temperature := 20, humidity := 50,
    co_ppm := 1, h2_ppm := 1, butane_ppm := 1, alert := false, co_alert := false,
    butane_alert := false, temperature_alert := false, humidity_alert := false }

/-- A store holding 1001 rows for device `B`: one over the retention cap. -/
def bigDb : List AirQuality := (List.range 1001).map (mkStoredRec devB)

/-- A store holding 1001 rows for device `B` and one row for device `C`. -/
def mixedDb : List AirQuality :=
  (List.range 1001).map (mkStoredRec devB) ++ [mkStoredRec devC 2000]

/-- A store holding a single row. -/
def dbOne : List AirQuality := [mkStoredRec devA 0]

/-- A store holding two rows of one device. -/
def dbTwo : List AirQuality := [mkStoredRec devA 0, mkStoredRec devA 1]

/-- An ordinary in-range reading. -/
def sampleData : ESP32Data :=
  { device_id := "esp2", temperature := 22, humidity := 45,
    co_ppm := 3, h2_ppm := 2, butane_ppm := 1 }

/-- A well-typed but out-of-model reading: empty device identifier and
negative gas concentrations. -/
def hostileData : ESP32Data :=
  { device_id := "", temperature := -5, humidity := 200,
    co_ppm := -1, h2_ppm := -2, butane_ppm := -3 }

/-- A concrete boundary reading: CO exactly at the high-water mark,
temperature exactly at the lower interval bound. -/
def boundaryReading : ESP32Data :=
  { device_id := "esp1", temperature := 15, humidity := 40,
    co_ppm := 50, h2_ppm := 1, butane_ppm := 1 }

section Helpers

theorem tsLe_trans : ∀ a b c : AirQuality,
    tsLe a b = true → tsLe b c = true → tsLe a c = true := by
  intro a b c hab hbc
  simp only [tsLe, decide_eq_true_eq] at *
  omega

theorem tsLe_total : ∀ a b : AirQuality, (tsLe a b || tsLe b a) = true := by
  intro a b
  simp only [tsLe, Bool.or_eq_true, decide_eq_true_eq]
  omega

theorem tsGe_trans : ∀ a b c : AirQuality,
    tsGe a b = true → tsGe b c = true → tsGe a c = true := by
  intro a b c hab hbc
  simp only [tsGe, decide_eq_true_eq] at *
  omega

theorem tsGe_total : ∀ a b : AirQuality, (tsGe a b || tsGe b a) = true := by
  intro a b
  simp only [tsGe, Bool.or_eq_true, decide_eq_true_eq]
  omega

theorem mem_deviceRecords {db : List AirQuality} {dev : String} {r : AirQuality} :
    r ∈ deviceRecords db dev ↔ r ∈ db ∧ r.device_id = dev := by
  simp [deviceRecords, List.mem_filter]

theorem mem_sortedDev {db : List AirQuality} {dev : String} {r : AirQuality} :
    r ∈ sortedDev db dev ↔ r ∈ deviceRecords db dev :=
  List.mem_mergeSort

theorem sortedDev_pairwise (db : List AirQuality) (dev : String) :
    List.Pairwise (fun a b => tsLe a b = true) (sortedDev db dev) :=
  List.sorted_mergeSort tsLe_trans tsLe_total (deviceRecords db dev)

theorem toDelete_eq (db : List AirQuality) (dev : String) :
    toDelete db dev = (sortedDev db dev).take (excess db dev) := rfl

theorem toDelete_subset_dev {db : List AirQuality} {dev : String} :
    ∀ r ∈ toDelete db dev, r ∈ deviceRecords db dev :=
  fun _ hr => mem_sortedDev.mp (List.take_subset _ _ hr)

theorem toDelete_subset_db {db : List AirQuality} {dev : String} :
    ∀ r ∈ toDelete db dev, r ∈ db :=
  fun r hr => (mem_deviceRecords.mp (toDelete_subset_dev r hr)).1

theorem toDelete_device {db : List AirQuality} {dev : String} :
    ∀ r ∈ toDelete db dev, r.device_id = dev :=
  fun r hr => (mem_deviceRecords.mp (toDelete_subset_dev r hr)).2

theorem toDelete_eq_nil {db : List AirQuality} {dev : String}
    (h : (deviceRecords db dev).length ≤ MAX_RECORDS_PER_DEVICE) :
    toDelete db dev = [] := by
  rw [toDelete_eq]
  have h0 : excess db dev = 0 := Nat.sub_eq_zero_of_le h
  rw [h0, List.take_zero]

theorem cleanup_eq (db : List AirQuality) (dev : String) :
    cleanup_old_records db dev =
      if MAX_RECORDS_PER_DEVICE < (deviceRecords db dev).length then
        db.filter (fun r => !((toDelete db dev).any fun d => d.id == r.id))
      else db := rfl

theorem cleanup_noop {db : List AirQuality} {dev : String}
    (h : (deviceRecords db dev).length ≤ MAX_RECORDS_PER_DEVICE) :
    cleanup_old_records db dev = db := by
  rw [cleanup_eq, if_neg (Nat.not_lt.mpr h)]

theorem cleanup_subset (db : List AirQuality) (dev : String) :
    cleanup_old_records db dev ⊆ db := by
  rw [cleanup_eq]
  by_cases h : MAX_RECORDS_PER_DEVICE < (deviceRecords db dev).length
  · rw [if_pos h]
    exact fun x hx => (List.mem_filter.mp hx).1
  · rw [if_neg h]
    exact fun x hx => hx

theorem id_inj {db : List AirQuality} (hid : (db.map AirQuality.id).Nodup)
    {a b : AirQuality} (ha : a ∈ db) (hb : b ∈ db) (h : a.id = b.id) : a = b :=
  List.inj_on_of_nodup_map hid ha hb h

theorem sortedDev_nodup {db : List AirQuality} {dev : String}
    (hid : (db.map AirQuality.id).Nodup) : (sortedDev db dev).Nodup :=
  ((List.mergeSort_perm (deviceRecords db dev) tsLe).nodup_iff).mpr
    ((List.Nodup.of_map AirQuality.id hid).filter _)

theorem cleanup_dev_perm {db : List AirQuality} {dev : String}
    (hid : (db.map AirQuality.id).Nodup) :
    (deviceRecords (cleanup_old_records db dev) dev).Perm
      ((sortedDev db dev).drop (excess db dev)) := by
  by_cases h : MAX_RECORDS_PER_DEVICE < (deviceRecords db dev).length
  case neg =>
    rw [cleanup_noop (Nat.not_lt.mp h)]
    have h0 : excess db dev = 0 := Nat.sub_eq_zero_of_le (Nat.not_lt.mp h)
    rw [h0, List.drop_zero]
    exact (List.mergeSort_perm _ _).symm
  case pos =>
    rw [cleanup_eq, if_pos h]
    have hf : deviceRecords
          (db.filter (fun r => !((toDelete db dev).any fun d => d.id == r.id))) dev
        = List.filter (fun r => !((toDelete db dev).any fun d => d.id == r.id))
            (deviceRecords db dev) := by
      unfold deviceRecords
      rw [List.filter_filter, List.filter_filter]
      exact List.filter_congr (fun a _ => Bool.and_comm _ _)
    rw [hf]
    have hperm := ((List.mergeSort_perm (deviceRecords db dev) tsLe).symm).filter
      (fun r => !((toDelete db dev).any fun d => d.id == r.id))
    refine hperm.trans ?_
    have hnd : (sortedDev db dev).Nodup := sortedDev_nodup hid
    have hsplit : List.take (excess db dev) (sortedDev db dev)
        ++ List.drop (excess db dev) (sortedDev db dev) = sortedDev db dev :=
      List.take_append_drop _ _
    have hdis := (List.nodup_append.mp (by rw [hsplit]; exact hnd)).2.2
    have hfold : (deviceRecords db dev).mergeSort tsLe = sortedDev db dev := rfl
    rw [hfold]
    conv_lhs => rw [← hsplit]
    rw [List.filter_append]
    have htake : List.filter (fun r => !((toDelete db dev).any fun d => d.id == r.id))
        (List.take (excess db dev) (sortedDev db dev)) = [] := by
      rw [List.filter_eq_nil_iff]
      intro a ha
      have hany : ((toDelete db dev).any fun d => d.id == a.id) = true :=
        List.any_eq_true.mpr ⟨a, ha, by simp⟩
      simp [hany]
    have hdrop : List.filter (fun r => !((toDelete db dev).any fun d => d.id == r.id))
        (List.drop (excess db dev) (sortedDev db dev))
        = List.drop (excess db dev) (sortedDev db dev) := by
      rw [List.filter_eq_self]
      intro a ha
      cases hX : ((toDelete db dev).any fun d => d.id == a.id) with
      | false => simp [hX]
      | true =>
        exfalso
        obtain ⟨d, hd, hbeq⟩ := List.any_eq_true.mp hX
        have hda : d = a := by
          refine id_inj hid (toDelete_subset_db d hd) ?_ (by simpa using hbeq)
          exact (mem_deviceRecords.mp (mem_sortedDev.mp (List.drop_subset _ _ ha))).1
        exact hdis (hda ▸ hd) ha
    rw [htake, hdrop, List.nil_append]

theorem cleanup_count {db : List AirQuality} {dev : String}
    (hid : (db.map AirQuality.id).Nodup) :
    (deviceRecords (cleanup_old_records db dev) dev).length
      = min (deviceRecords db dev).length MAX_RECORDS_PER_DEVICE := by
  rw [(cleanup_dev_perm hid).length_eq, List.length_drop]
  unfold sortedDev excess
  rw [List.length_mergeSort]
  omega

theorem mem_cleanup_iff {db : List AirQuality} {dev : String} {r : AirQuality}
    (hid : (db.map AirQuality.id).Nodup) :
    r ∈ cleanup_old_records db dev ↔ r ∈ db ∧ r ∉ toDelete db dev := by
  by_cases h : MAX_RECORDS_PER_DEVICE < (deviceRecords db dev).length
  case pos =>
    rw [cleanup_eq, if_pos h, List.mem_filter]
    constructor
    · rintro ⟨hdb, hp⟩
      refine ⟨hdb, fun hrd => ?_⟩
      have hany : ((toDelete db dev).any fun d => d.id == r.id) = true :=
        List.any_eq_true.mpr ⟨r, hrd, by simp⟩
      simp [hany] at hp
    · rintro ⟨hdb, hnd⟩
      refine ⟨hdb, ?_⟩
      cases hX : ((toDelete db dev).any fun d => d.id == r.id) with
      | false => simp [hX]
      | true =>
        obtain ⟨d, hd, hbeq⟩ := List.any_eq_true.mp hX
        have hdr : d = r := id_inj hid (toDelete_subset_db d hd) hdb (by simpa using hbeq)
        exact absurd (hdr ▸ hd) hnd
  case neg =>
    rw [cleanup_noop (Nat.not_lt.mp h), toDelete_eq_nil (Nat.not_lt.mp h)]
    simp

theorem strict_max_mem_cleanup {db : List AirQuality} {dev : String} {r : AirQuality}
    (hid : (db.map AirQuality.id).Nodup) (hr : r ∈ db)
    (hmax : ∀ x ∈ deviceRecords db dev, x ≠ r → x.timestamp < r.timestamp) :
    r ∈ cleanup_old_records db dev := by
  rw [mem_cleanup_iff hid]
  refine ⟨hr, fun hrd => ?_⟩
  by_cases h : MAX_RECORDS_PER_DEVICE < (deviceRecords db dev).length
  case neg =>
    rw [toDelete_eq_nil (Nat.not_lt.mp h)] at hrd
    exact absurd hrd (List.not_mem_nil r)
  case pos =>
    have hnd : (sortedDev db dev).Nodup := sortedDev_nodup hid
    have hsplit : List.take (excess db dev) (sortedDev db dev)
        ++ List.drop (excess db dev) (sortedDev db dev) = sortedDev db dev :=
      List.take_append_drop _ _
    have hdis := (List.nodup_append.mp (by rw [hsplit]; exact hnd)).2.2
    have hlen : (List.drop (excess db dev) (sortedDev db dev)).length
        = MAX_RECORDS_PER_DEVICE := by
      rw [List.length_drop]
      unfold sortedDev excess
      rw [List.length_mergeSort]
      omega
    cases hdrop : List.drop (excess db dev) (sortedDev db dev) with
    | nil =>
      rw [hdrop] at hlen
      simp [MAX_RECORDS_PER_DEVICE] at hlen
    | cons y t =>
      have hy_drop : y ∈ List.drop (excess db dev) (sortedDev db dev) := by
        rw [hdrop]
        exact List.mem_cons_self _ _
      have hpw2 := (List.pairwise_append.mp
        (by rw [hsplit]; exact sortedDev_pairwise db dev)).2.2
      have hrle : tsLe r y = true := hpw2 r hrd y hy_drop
      have hy_dev : y ∈ deviceRecords db dev :=
        mem_sortedDev.mp (List.drop_subset _ _ hy_drop)
      have hyr : y ≠ r := fun he => hdis hrd (he ▸ hy_drop)
      have hlt := hmax y hy_dev hyr
      simp only [tsLe, decide_eq_true_eq] at hrle
      omega

theorem cleanup_frame_eq {db : List AirQuality} {dev dev2 : String}
    (hid : (db.map AirQuality.id).Nodup) (hne : dev2 ≠ dev) :
    deviceRecords (cleanup_old_records db dev) dev2 = deviceRecords db dev2 := by
  by_cases h : MAX_RECORDS_PER_DEVICE < (deviceRecords db dev).length
  case pos =>
    rw [cleanup_eq, if_pos h]
    unfold deviceRecords
    rw [List.filter_filter]
    apply List.filter_congr
    intro a ha
    by_cases hq : a.device_id = dev2
    · have hp : ((toDelete db dev).any fun d => d.id == a.id) = false := by
        cases hX : ((toDelete db dev).any fun d => d.id == a.id) with
        | false => rfl
        | true =>
          exfalso
          obtain ⟨d, hd, hbeq⟩ := List.any_eq_true.mp hX
          have hda : d = a := id_inj hid (toDelete_subset_db d hd) ha (by simpa using hbeq)
          have hdev : a.device_id = dev := hda ▸ toDelete_device d hd
          exact hne (hq.symm.trans hdev)
      simp [hq, hp]
    · simp [hq]
  case neg =>
    rw [cleanup_noop (Nat.not_lt.mp h)]

theorem latest_spec {db : List AirQuality} (hne : db ≠ []) :
    ∃ r ∈ db, latest db = LatestResult.ok (toLatestFields r)
      ∧ ∀ x ∈ db, x.timestamp ≤ r.timestamp := by
  cases hsort : db.mergeSort tsGe with
  | nil =>
    exfalso
    have hl := @List.length_mergeSort _ tsGe db
    rw [hsort] at hl
    simp only [List.length_nil] at hl
    exact hne (List.length_eq_zero.mp hl.symm)
  | cons h t =>
    refine ⟨h, ?_, ?_, ?_⟩
    · refine (@List.mem_mergeSort _ tsGe h db).mp ?_
      rw [hsort]
      exact List.mem_cons_self h t
    · unfold latest
      rw [hsort]
      rfl
    · intro x hx
      have hx2 : x ∈ h :: t := by
        rw [← hsort]
        exact List.mem_mergeSort.mpr hx
      rcases List.mem_cons.mp hx2 with he | ht
      · subst he
        exact Nat.le_refl _
      · have hpw := List.sorted_mergeSort tsGe_trans tsGe_total db
        rw [hsort] at hpw
        have hrel := (List.pairwise_cons.mp hpw).1 x ht
        simpa [tsGe] using hrel

theorem latest_strict_max {db : List AirQuality} {r : AirQuality} (hr : r ∈ db)
    (hmax : ∀ x ∈ db, x ≠ r → x.timestamp < r.timestamp) :
    latest db = LatestResult.ok (toLatestFields r) := by
  obtain ⟨h, hmem, heq, hle⟩ := latest_spec (List.ne_nil_of_mem hr)
  by_cases hh : h = r
  · rw [hh] at heq
    exact heq
  · have h1 := hmax h hmem hh
    have h2 := hle r hr
    exact absurd h2 (Nat.not_le.mpr h1)

theorem freshId_gt {db : List AirQuality} : ∀ r ∈ db, r.id < freshId db := by
  induction db with
  | nil =>
    intro r hr
    exact absurd hr (List.not_mem_nil r)
  | cons a t ih =>
    intro r hr
    rcases List.mem_cons.mp hr with he | ht
    · subst he
      show r.id < Nat.max (r.id + 1) (freshId t)
      exact Nat.lt_of_lt_of_le (Nat.lt_succ_self _) (Nat.le_max_left _ _)
    · have hlt := ih r ht
      show r.id < Nat.max (a.id + 1) (freshId t)
      exact Nat.lt_of_lt_of_le hlt (Nat.le_max_right _ _)

theorem ingested_ids_nodup (db : List AirQuality) (now : Nat) (data : ESP32Data)
    (hid : (db.map AirQuality.id).Nodup) :
    ((db ++ [ingestedRecord db now data]).map AirQuality.id).Nodup := by
  rw [List.map_append, List.nodup_append]
  refine ⟨hid, List.nodup_singleton _, ?_⟩
  intro a ha hb
  simp only [List.map_cons, List.map_nil, List.mem_singleton] at hb
  obtain ⟨r, hr, hr2⟩ := List.mem_map.mp ha
  have hlt := freshId_gt r hr
  have : r.id = freshId db := by rw [hr2, hb]; rfl
  omega

theorem ingested_mem_receive (db : List AirQuality) (now : Nat) (data : ESP32Data)
    (hid : (db.map AirQuality.id).Nodup)
    (hts : ∀ x ∈ db, x.timestamp < now) :
    ingestedRecord db now data ∈ (receive_data db now data).1 := by
  apply strict_max_mem_cleanup (ingested_ids_nodup db now data hid)
  · exact List.mem_append_right _ (List.mem_cons_self _ _)
  · intro x hx hne2
    have hx2 : x ∈ db ++ [ingestedRecord db now data] := (mem_deviceRecords.mp hx).1
    rcases List.mem_append.mp hx2 with hl | hr
    · exact hts x hl
    · exact absurd (by simpa using hr) hne2

theorem receive_strict_max (db : List AirQuality) (now : Nat) (data : ESP32Data)
    (hts : ∀ x ∈ db, x.timestamp < now) :
    ∀ x ∈ (receive_data db now data).1, x ≠ ingestedRecord db now data →
      x.timestamp < (ingestedRecord db now data).timestamp := by
  intro x hx hne2
  have hx2 := cleanup_subset _ _ hx
  rcases List.mem_append.mp hx2 with hl | hr
  · exact hts x hl
  · exact absurd (by simpa using hr) hne2

theorem bigDb_ids_nodup : (bigDb.map AirQuality.id).Nodup := by
  rw [bigDb, List.map_map]
  exact (List.nodup_range 1001).map_on (fun x _ y _ h => h)

theorem mixedDb_ids_nodup : (mixedDb.map AirQuality.id).Nodup := by
  rw [mixedDb, List.map_append, List.map_map, List.nodup_append]
  refine ⟨(List.nodup_range 1001).map_on (fun x _ y _ h => h), by simp, ?_⟩
  intro a ha hb
  simp only [List.map_cons, List.map_nil, List.mem_singleton] at hb
  obtain ⟨i, hi, hi2⟩ := List.mem_map.mp ha
  have : a = i := hi2.symm
  have hb2 : a = 2000 := by simpa [mkStoredRec] using hb
  rw [List.mem_range] at hi
  omega

theorem dbOne_ids_nodup : (dbOne.map AirQuality.id).Nodup := by
  simp [dbOne]

end Helpers

/-- C1: the alert evaluator computes each alert from its threshold —
strict comparison for the two high-water marks, closed intervals for
temperature and humidity, disjunction for the overall flag — and the
boundary values (CO exactly 50, temperature exactly 15 or 30) do not
alert. -/
theorem C1_compute_alerts_spec (data : ESP32Data) :
    (compute_alerts data).co_alert = decide (data.co_ppm > CO_THRESHOLD)
    ∧ (compute_alerts data).butane_alert = decide (data.butane_ppm > BUTANE_THRESHOLD)
    ∧ (compute_alerts data).temperature_alert
        = !decide (TEMP_MIN ≤ data.temperature ∧ data.temperature ≤ TEMP_MAX)
    ∧ (compute_alerts data).humidity_alert
        = !decide (HUMIDITY_MIN ≤ data.humidity ∧ data.humidity ≤ HUMIDITY_MAX)
    ∧ (compute_alerts data).alert
        = ((compute_alerts data).co_alert || (compute_alerts data).butane_alert
            || (compute_alerts data).temperature_alert || (compute_alerts data).humidity_alert)
    ∧ (data.co_ppm = CO_THRESHOLD → (compute_alerts data).co_alert = false)
    ∧ (data.temperature = TEMP_MIN → (compute_alerts data).temperature_alert = false)
    ∧ (data.temperature = TEMP_MAX → (compute_alerts data).temperature_alert = false) := by
  refine ⟨rfl, rfl, rfl, rfl, rfl, ?_, ?_, ?_⟩
  · intro h
    simp [compute_alerts, h]
  · intro h
    simp only [compute_alerts, h]
    norm_num [TEMP_MIN, TEMP_MAX]
  · intro h
    simp only [compute_alerts, h]
    norm_num [TEMP_MIN, TEMP_MAX]

/-- Witness for C1 at a concrete boundary reading: CO exactly 50 ppm and
temperature exactly 15 °C raise no CO alert and no temperature alert. -/
theorem C1_compute_alerts_spec_witness :
    boundaryReading.co_ppm = CO_THRESHOLD
    ∧ (compute_alerts boundaryReading).co_alert = false
    ∧ (compute_alerts boundaryReading).temperature_alert = false := by
  refine ⟨by norm_num [boundaryReading, CO_THRESHOLD], ?_, ?_⟩
  · exact (C1_compute_alerts_spec boundaryReading).2.2.2.2.2.1
      (by norm_num [boundaryReading, CO_THRESHOLD])
  · exact (C1_compute_alerts_spec boundaryReading).2.2.2.2.2.2.1
      (by norm_num [boundaryReading, TEMP_MIN])

/-- C7: on an empty store the `/latest` route answers the explicit
`No data yet` result instead of failing. -/
theorem C7_latest_empty_noData : latest ([] : List AirQuality) = LatestResult.noData := by
  simp [latest]

/-- C2: after a `cleanup_old_records` pass the stored count for the device
is `min count 1000`, hence at most 1000; when the count exceeded the cap,
exactly the `count - 1000` oldest rows by timestamp ascending are selected
and none of them survives, every unselected row survives, and the strictly
newest row of the device survives. -/
theorem C2_retention_cap (db : List AirQuality) (dev : String)
    (hid : (db.map AirQuality.id).Nodup) :
    (deviceRecords (cleanup_old_records db dev) dev).length
        = min (deviceRecords db dev).length MAX_RECORDS_PER_DEVICE
    ∧ (toDelete db dev).length
        = (deviceRecords db dev).length - MAX_RECORDS_PER_DEVICE
    ∧ (∀ r ∈ toDelete db dev, r ∉ cleanup_old_records db dev)
    ∧ (∀ r ∈ db, r ∉ toDelete db dev → r ∈ cleanup_old_records db dev)
    ∧ (∀ r ∈ deviceRecords db dev,
        (∀ x ∈ deviceRecords db dev, x ≠ r → x.timestamp < r.timestamp) →
        r ∈ cleanup_old_records db dev) := by
  refine ⟨cleanup_count hid, ?_, ?_, ?_, ?_⟩
  · rw [toDelete_eq, List.length_take]
    unfold excess sortedDev
    rw [List.length_mergeSort]
    omega
  · intro r hr hmem
    exact ((mem_cleanup_iff hid).mp hmem).2 hr
  · intro r hr hnd
    exact (mem_cleanup_iff hid).mpr ⟨hr, hnd⟩
  · intro r hr hmax
    exact strict_max_mem_cleanup hid (mem_deviceRecords.mp hr).1 hmax

/-- Witness for C2 on a concrete store holding 1001 rows for device B,
one over the cap. -/
theorem C2_retention_cap_witness :
    (bigDb.map AirQuality.id).Nodup
    ∧ ((deviceRecords (cleanup_old_records bigDb devB) devB).length
          = min (deviceRecords bigDb devB).length MAX_RECORDS_PER_DEVICE
        ∧ (toDelete bigDb devB).length
            = (deviceRecords bigDb devB).length - MAX_RECORDS_PER_DEVICE
        ∧ (∀ r ∈ toDelete bigDb devB, r ∉ cleanup_old_records bigDb devB)
        ∧ (∀ r ∈ bigDb, r ∉ toDelete bigDb devB → r ∈ cleanup_old_records bigDb devB)
        ∧ (∀ r ∈ deviceRecords bigDb devB,
            (∀ x ∈ deviceRecords bigDb devB, x ≠ r → x.timestamp < r.timestamp) →
            r ∈ cleanup_old_records bigDb devB)) :=
  ⟨bigDb_ids_nodup, C2_retention_cap bigDb devB bigDb_ids_nodup⟩

/-- C3: the backend is transactional, so a write accepted by `/api/data`
is durable before the request returns; when the new record's timestamp is
strictly newer than everything stored, a subsequent `/latest` query
returns exactly that record's data (read-your-writes). -/
theorem C3_read_your_writes (db : List AirQuality) (now : Nat) (data : ESP32Data)
    (hid : (db.map AirQuality.id).Nodup)
    (hts : ∀ x ∈ db, x.timestamp < now) :
    (receive_data db now data).2 = "ok"
    ∧ latest (receive_data db now data).1
        = LatestResult.ok
            [("timestamp", CellValue.time now),
             ("device_id", CellValue.str data.device_id),
             ("temperature", CellValue.num data.temperature),
             ("humidity", CellValue.num data.humidity),
             ("co_ppm", CellValue.num data.co_ppm),
             ("h2_ppm", CellValue.num data.h2_ppm),
             ("butane_ppm", CellValue.num data.butane_ppm),
             ("alert", CellValue.boolVal (compute_alerts data).alert)] := by
  refine ⟨rfl, ?_⟩
  have hmem := ingested_mem_receive db now data hid hts
  have hstrict := receive_strict_max db now data hts
  exact latest_strict_max hmem hstrict

/-- Witness for C3: one stored row with timestamp 0, a write at time 5,
and the subsequent `/latest` answer. -/
theorem C3_read_your_writes_witness :
    (dbOne.map AirQuality.id).Nodup
    ∧ (∀ x ∈ dbOne, x.timestamp < 5)
    ∧ ((receive_data dbOne 5 sampleData).2 = "ok"
        ∧ latest (receive_data dbOne 5 sampleData).1
            = LatestResult.ok
                [("timestamp", CellValue.time 5),
                 ("device_id", CellValue.str sampleData.device_id),
                 ("temperature", CellValue.num sampleData.temperature),
                 ("humidity", CellValue.num sampleData.humidity),
                 ("co_ppm", CellValue.num sampleData.co_ppm),
                 ("h2_ppm", CellValue.num sampleData.h2_ppm),
                 ("butane_ppm", CellValue.num sampleData.butane_ppm),
                 ("alert", CellValue.boolVal (compute_alerts sampleData).alert)]) :=
  ⟨dbOne_ids_nodup, by decide, C3_read_your_writes dbOne 5 sampleData dbOne_ids_nodup (by decide)⟩

/-- C4: on a non-empty store `/latest` returns the most recent record by
timestamp over all devices globally; no per-device filter is applied. -/
theorem C4_latest_global (db : List AirQuality) (hne : db ≠ []) :
    ∃ r ∈ db, latest db = LatestResult.ok (toLatestFields r)
      ∧ ∀ x ∈ db, x.timestamp ≤ r.timestamp :=
  latest_spec hne

/-- Witness for C4 on a concrete one-row store. -/
theorem C4_latest_global_witness :
    dbOne ≠ []
    ∧ ∃ r ∈ dbOne, latest dbOne = LatestResult.ok (toLatestFields r)
        ∧ ∀ x ∈ dbOne, x.timestamp ≤ r.timestamp :=
  ⟨by decide, C4_latest_global dbOne (by decide)⟩

/-- C5: the retention enforcer is idempotent — running it twice with no
intervening append leaves the store exactly as after the first run — and
it is a no-op when the device count does not exceed the cap. -/
theorem C5_cleanup_idempotent (db : List AirQuality) (dev : String)
    (hid : (db.map AirQuality.id).Nodup) :
    cleanup_old_records (cleanup_old_records db dev) dev = cleanup_old_records db dev
    ∧ ((deviceRecords db dev).length ≤ MAX_RECORDS_PER_DEVICE →
        cleanup_old_records db dev = db) := by
  refine ⟨?_, cleanup_noop⟩
  apply cleanup_noop
  rw [cleanup_count hid]
  exact Nat.min_le_right _ _

/-- Witness for C5 on the 1001-row store for device B. -/
theorem C5_cleanup_idempotent_witness :
    (bigDb.map AirQuality.id).Nodup
    ∧ (cleanup_old_records (cleanup_old_records bigDb devB) devB
          = cleanup_old_records bigDb devB
        ∧ ((deviceRecords bigDb devB).length ≤ MAX_RECORDS_PER_DEVICE →
            cleanup_old_records bigDb devB = bigDb)) :=
  ⟨bigDb_ids_nodup, C5_cleanup_idempotent bigDb devB bigDb_ids_nodup⟩

/-- C6: an accepted record read back through the CSV export carries
exactly the ingested values — the header names the twelve fields in
order, the record's row is present in the export, and that row lists the
ingestion timestamp, the payload fields and the computed alert booleans
in the same order. -/
theorem C6_round_trip (db : List AirQuality) (now : Nat) (data : ESP32Data)
    (hid : (db.map AirQuality.id).Nodup)
    (hts : ∀ x ∈ db, x.timestamp < now) :
    (download_csv ((receive_data db now data).1)).1
        = ["timestamp", "device_id", "temperature", "humidity",
           "co_ppm", "h2_ppm", "butane_ppm", "alert", "co_alert",
           "butane_alert", "temperature_alert", "humidity_alert"]
    ∧ recordRow (ingestedRecord db now data) ∈ (download_csv ((receive_data db now data).1)).2
    ∧ recordRow (ingestedRecord db now data)
        = [CellValue.time now, CellValue.str data.device_id,
           CellValue.num data.temperature, CellValue.num data.humidity,
           CellValue.num data.co_ppm, CellValue.num data.h2_ppm,
           CellValue.num data.butane_ppm,
           CellValue.boolVal (compute_alerts data).alert,
           CellValue.boolVal (compute_alerts data).co_alert,
           CellValue.boolVal (compute_alerts data).butane_alert,
           CellValue.boolVal (compute_alerts data).temperature_alert,
           CellValue.boolVal (compute_alerts data).humidity_alert] := by
  refine ⟨rfl, ?_, rfl⟩
  exact List.mem_map_of_mem recordRow (ingested_mem_receive db now data hid hts)

/-- Witness for C6: the row ingested at time 9 appears in the export with
the ingested values. -/
theorem C6_round_trip_witness :
    (dbOne.map AirQuality.id).Nodup
    ∧ (∀ x ∈ dbOne, x.timestamp < 9)
    ∧ ((download_csv ((receive_data dbOne 9 sampleData).1)).1
          = ["timestamp", "device_id", "temperature", "humidity",
             "co_ppm", "h2_ppm", "butane_ppm", "alert", "co_alert",
             "butane_alert", "temperature_alert", "humidity_alert"]
        ∧ recordRow (ingestedRecord dbOne 9 sampleData)
            ∈ (download_csv ((receive_data dbOne 9 sampleData).1)).2
        ∧ recordRow (ingestedRecord dbOne 9 sampleData)
            = [CellValue.time 9, CellValue.str sampleData.device_id,
               CellValue.num sampleData.temperature, CellValue.num sampleData.humidity,
               CellValue.num sampleData.co_ppm, CellValue.num sampleData.h2_ppm,
               CellValue.num sampleData.butane_ppm,
               CellValue.boolVal (compute_alerts sampleData).alert,
               CellValue.boolVal (compute_alerts sampleData).co_alert,
               CellValue.boolVal (compute_alerts sampleData).butane_alert,
               CellValue.boolVal (compute_alerts sampleData).temperature_alert,
               CellValue.boolVal (compute_alerts sampleData).humidity_alert]) :=
  ⟨dbOne_ids_nodup, by decide, C6_round_trip dbOne 9 sampleData dbOne_ids_nodup (by decide)⟩

/-- C8: the ingestion handler has no value-validation branch — every
well-typed payload, including one with negative gas concentrations and an
empty device identifier, is persisted and answered with status ok. -/
theorem C8_no_validation (db : List AirQuality) (now : Nat) (data : ESP32Data)
    (hid : (db.map AirQuality.id).Nodup)
    (hts : ∀ x ∈ db, x.timestamp < now) :
    (receive_data db now data).2 = "ok"
    ∧ ingestedRecord db now data ∈ (receive_data db now data).1 :=
  ⟨rfl, ingested_mem_receive db now data hid hts⟩

/-- Witness for C8 at a payload with an empty device id and negative gas
concentrations: it is persisted and acknowledged with ok. -/
theorem C8_no_validation_witness :
    hostileData.device_id = ""
    ∧ hostileData.co_ppm < 0
    ∧ (dbOne.map AirQuality.id).Nodup
    ∧ (∀ x ∈ dbOne, x.timestamp < 7)
    ∧ ((receive_data dbOne 7 hostileData).2 = "ok"
        ∧ ingestedRecord dbOne 7 hostileData ∈ (receive_data dbOne 7 hostileData).1) := by
  refine ⟨rfl, by norm_num [hostileData], dbOne_ids_nodup, by decide, ?_⟩
  exact C8_no_validation dbOne 7 hostileData dbOne_ids_nodup (by decide)

/-- C9: frame property of retention — a `cleanup_old_records` pass for one
device leaves every stored record of any other device unchanged, and only
rows whose device identifier equals the argument are ever deleted. -/
theorem C9_cleanup_frame (db : List AirQuality) (dev dev2 : String)
    (hid : (db.map AirQuality.id).Nodup) (hne : dev2 ≠ dev) :
    deviceRecords (cleanup_old_records db dev) dev2 = deviceRecords db dev2
    ∧ (∀ r ∈ db, r ∉ cleanup_old_records db dev → r.device_id = dev) := by
  refine ⟨cleanup_frame_eq hid hne, ?_⟩
  intro r hr hout
  by_cases hd : r ∈ toDelete db dev
  · exact toDelete_device r hd
  · exact absurd ((mem_cleanup_iff hid).mpr ⟨hr, hd⟩) hout

/-- Witness for C9 on a store holding 1001 rows for device B and one row
for device C: the pass for B leaves device C untouched. -/
theorem C9_cleanup_frame_witness :
    (mixedDb.map AirQuality.id).Nodup
    ∧ devC ≠ devB
    ∧ (deviceRecords (cleanup_old_records mixedDb devB) devC = deviceRecords mixedDb devC
        ∧ (∀ r ∈ mixedDb, r ∉ cleanup_old_records mixedDb devB → r.device_id = devB)) :=
  ⟨mixedDb_ids_nodup, by decide, C9_cleanup_frame mixedDb devB devC mixedDb_ids_nodup (by decide)⟩

/-- C10: a successful `/latest` response carries exactly the eight keys
timestamp, device_id, temperature, humidity, co_ppm, h2_ppm, butane_ppm
and the overall alert flag; none of the four individual alert booleans
appears among its keys. -/
theorem C10_latest_fields (db : List AirQuality) (hne : db ≠ []) :
    ∃ r ∈ db, latest db = LatestResult.ok (toLatestFields r)
      ∧ (toLatestFields r).map Prod.fst
          = ["timestamp", "device_id", "temperature", "humidity",
             "co_ppm", "h2_ppm", "butane_ppm", "alert"]
      ∧ "co_alert" ∉ (toLatestFields r).map Prod.fst
      ∧ "butane_alert" ∉ (toLatestFields r).map Prod.fst
      ∧ "temperature_alert" ∉ (toLatestFields r).map Prod.fst
      ∧ "humidity_alert" ∉ (toLatestFields r).map Prod.fst := by
  obtain ⟨r, hr, heq, hle⟩ := latest_spec hne
  refine ⟨r, hr, heq, rfl, ?_, ?_, ?_, ?_⟩ <;> simp [toLatestFields]

/-- Witness for C10 on a concrete two-row store. -/
theorem C10_latest_fields_witness :
    dbTwo ≠ []
    ∧ ∃ r ∈ dbTwo, latest dbTwo = LatestResult.ok (toLatestFields r)
        ∧ (toLatestFields r).map Prod.fst
            = ["timestamp", "device_id", "temperature", "humidity",
               "co_ppm", "h2_ppm", "butane_ppm", "alert"]
        ∧ "co_alert" ∉ (toLatestFields r).map Prod.fst
        ∧ "butane_alert" ∉ (toLatestFields r).map Prod.fst
        ∧ "temperature_alert" ∉ (toLatestFields r).map Prod.fst
        ∧ "humidity_alert" ∉ (toLatestFields r).map Prod.fst :=
  ⟨by decide, C10_latest_fields dbTwo (by decide)⟩
